import Mathlib

/-!
Shallow embedding of the typed multi-dimensional buffer allocation engine
of `aten/src/ATen/EmptyTensor.cpp` (`check_size_nonnegative`,
`empty_generic`, `GetCPUAllocatorMaybePinned`, and the three `empty_cpu`
entry points), together with models of the collaborators the file calls
into (`c10::multiply_integers`, `caffe2::TypeMeta::itemsize`,
`TensorImpl::set_sizes_contiguous`, `TensorImpl::empty_tensor_restride`,
allocator resolution and option defaulting), which are declared outside
the file and are therefore modelled from the specification.

Machine integers are embedded as `Int` with explicit wrapping modulo
`2^64` where the source performs unchecked 64-bit arithmetic.  Fallible
operations return `Except Err`.  Each entry point additionally returns a
trace of side-effect events (`allocator->allocate` calls, storage
creation, metadata writes), so that claims about which operations are or
are not performed on a given path are statable.
-/

/-- Element type tags.  `ScalarType` itself is declared outside the
source file; a representative subset of the enumeration is used here. -/
inductive ScalarType where
  | Byte | Char | Short | Int | Long | Half | Float | Double | Bool
deriving DecidableEq

/-- Modelled from the spec: the ElementTypeRegistry "maps a type tag to
its byte width" (`caffe2::TypeMeta::itemsize`, not in the source file).
Widths are the fixed byte widths of the corresponding element types. -/
def itemsize : ScalarType → Int
  | .Byte => 1
  | .Char => 1
  | .Short => 2
  | .Int => 4
  | .Long => 8
  | .Half => 2
  | .Float => 4
  | .Double => 8
  | .Bool => 1

/-- Memory format tags: Contiguous plus an alternative permuted layout. -/
inductive MemoryFormat where
  | Contiguous | ChannelsLast
deriving DecidableEq

/-- The error taxonomy of the engine (spec section 7): ValidationError
carries the offending dimension and the full shape. -/
inductive Err where
  | validationError (dim : Int) (shape : List Int)
  | overflowError
  | unsupportedPolicyError
  | allocationError
deriving DecidableEq

/-- Smallest value of a signed 64-bit integer. -/
def int64_min : Int := -(2 ^ 63)

/-- Largest value of a signed 64-bit integer. -/
def int64_max : Int := 2 ^ 63 - 1

/-- Wrapping of an integer into signed 64-bit two's-complement range,
modelling unchecked `int64_t` arithmetic. -/
def wrap64 (z : Int) : Int := (z + 2 ^ 63) % 2 ^ 64 - 2 ^ 63

/-- Overflow-checked multiplication of two in-range values: fails with an
OverflowError when the mathematical product leaves the `int64_t` range. -/
def checkedMul (a b : Int) : Except Err Int :=
  let p := a * b
  if int64_min ≤ p ∧ p ≤ int64_max then Except.ok p else Except.error Err.overflowError

/-- Accumulator loop of `multiply_integers`. -/
def multiply_integers_go (acc : Int) : List Int → Except Err Int
  | [] => Except.ok acc
  | x :: rest =>
    match checkedMul acc x with
    | Except.error e => Except.error e
    | Except.ok p => multiply_integers_go p rest

/-- Modelled from the spec: `c10::multiply_integers` (not in the source
file) "computes the product of all dimensions using overflow-checked
multiplication; product of an empty shape is defined as 1", and
"overflow ... fails with an OverflowError rather than silently
wrapping". -/
def multiply_integers (size : List Int) : Except Err Int :=
  multiply_integers_go 1 size

/-- An opaque-to-the-engine identity token for an allocated buffer
(models the `DataPtr` returned by `Allocator::allocate`). -/
structure DataPtr where
  id : Nat
deriving DecidableEq

/-- An allocator capability: acquiring `byte_size` bytes either yields a
buffer or fails (AllocationError propagates, spec section 4.3). -/
structure Allocator where
  allocate : Int → Except Err DataPtr

/-- Storage: byte length, owned buffer, resizable flag (reference
counting is out of scope of the allocation path itself). -/
structure StorageImpl where
  size_bytes : Int
  data : DataPtr
  resizable : Bool
deriving DecidableEq

/-- The Descriptor: storage reference, sizes, strides, element type. -/
structure TensorImpl where
  storage : StorageImpl
  sizes : List Int
  strides : List Int
  dtype : ScalarType
deriving DecidableEq

/-- Side-effect events traced by the embedding: an `allocator->allocate`
call, construction of a `StorageImpl`, the two metadata writes of
`empty_generic`, and completion of the Descriptor build. -/
inductive Event where
  | allocate (size_bytes : Int)
  | storageCreated (size_bytes : Int)
  | setSizesContiguous (size : List Int)
  | restride (fmt : MemoryFormat)
  | descriptorBuilt
deriving DecidableEq

/-- Product over a list of `max size 1` factors: the cumulative product
of the stride derivation, in which "a dimension of size 0 or 1 does not
change the cumulative product" (spec section 4.4). -/
def sizeProd1 (l : List Int) : Int := l.foldr (fun s acc => max s 1 * acc) 1

/-- Modelled from the spec: the LayoutEngine's Contiguous ("standard
row-major") stride derivation used by `TensorImpl::set_sizes_contiguous`
(not in the source file) — "the last dimension has stride 1; each
preceding dimension's stride is the product of all dimension sizes to
its right (with the convention that a dimension of size 0 or 1 does not
change the cumulative product ...)". -/
def contiguousStrides : List Int → List Int
  | [] => []
  | _ :: rest => sizeProd1 rest :: contiguousStrides rest

/-- Modelled from the spec: the channels-last permuted stride derivation
for a `[N,C,H,W]`-style 4-dimensional shape — "permute the
dimension-traversal order used for the same cumulative-product
derivation, then re-map strides back onto the original dimension order".
The channel dimension becomes innermost (stride 1).  For ranks other
than 4 the spec fixes no permutation; the identity permutation (the
contiguous derivation) is used. -/
def channelsLastStrides (sizes : List Int) : List Int :=
  match sizes with
  | [_n, c, h, w] => [max h 1 * (max w 1 * (max c 1 * 1)), 1, max w 1 * (max c 1 * 1), max c 1 * 1]
  | l => contiguousStrides l

/-- Modelled from the spec: `TensorImpl::set_sizes_contiguous` (not in
the source file) sets sizes from the shape and computes strides via the
LayoutEngine's Contiguous derivation. -/
def TensorImpl.set_sizes_contiguous (t : TensorImpl) (size : List Int) : TensorImpl :=
  { t with sizes := size, strides := contiguousStrides size }

/-- Modelled from the spec: `TensorImpl::empty_tensor_restride` (not in
the source file) rewrites the Descriptor's strides in place for the
requested memory format ("never its Storage", spec section 3). -/
def TensorImpl.empty_tensor_restride (t : TensorImpl) (fmt : MemoryFormat) : TensorImpl :=
  match fmt with
  | .Contiguous => { t with strides := contiguousStrides t.sizes }
  | .ChannelsLast => { t with strides := channelsLastStrides t.sizes }

/-- Loop body of `check_size_nonnegative`: `full` is the complete shape
cited by the error message, `l` the remaining dimensions.  Mirrors
`for (auto x : size) TORCH_CHECK(x >= 0, ..., x, ": ", size)`. -/
def check_size_nonnegative_go (full : List Int) : List Int → Except Err Unit
  | [] => Except.ok ()
  | x :: rest =>
    if x ≥ 0 then check_size_nonnegative_go full rest
    else Except.error (Err.validationError x full)

/-- `check_size_nonnegative` from the source file: rejects any negative
dimension with a ValidationError carrying the dimension and the shape. -/
def check_size_nonnegative (size : List Int) : Except Err Unit :=
  check_size_nonnegative_go size size

/-- `empty_generic` from the source file.  Validates the shape, computes
the element count with `multiply_integers` (overflow-checked), computes
`size_bytes = nelements * dtype.itemsize()` as an unchecked `int64_t`
multiplication, allocates, builds the storage (resizable) and the
default tensor (sizes `[0]`, strides `[1]`), sets sizes/strides from the
shape unless the shape is the default `[0]`
(`size.size() != 1 || size[0] != 0`), and restrides when an explicit
memory format other than Contiguous is supplied.  The dispatch-key
argument of the source is dispatch machinery outside the engine's scope
and is omitted; `caffe2::TypeMeta` is identified with `ScalarType`.
Returns the result together with the trace of side-effect events. -/
def empty_generic (size : List Int) (allocator : Allocator)
    (scalar_type : ScalarType) (memory_format_opt : Option MemoryFormat) :
    Except Err TensorImpl × List Event :=
  match check_size_nonnegative size with
  | Except.error e => (Except.error e, [])
  | Except.ok _ =>
    match multiply_integers size with
    | Except.error e => (Except.error e, [])
    | Except.ok nelements =>
      let size_bytes := wrap64 (nelements * itemsize scalar_type)
      match allocator.allocate size_bytes with
      | Except.error e => (Except.error e, [Event.allocate size_bytes])
      | Except.ok data =>
        let storage : StorageImpl :=
          { size_bytes := size_bytes, data := data, resizable := true }
        let t0 : TensorImpl :=
          { storage := storage, sizes := [0], strides := [1], dtype := scalar_type }
        let r1 : TensorImpl × List Event :=
          if size.length ≠ 1 ∨ size.headD 0 ≠ 0 then
            (TensorImpl.set_sizes_contiguous t0 size, [Event.setSizesContiguous size])
          else (t0, [])
        let r2 : TensorImpl × List Event :=
          match memory_format_opt with
          | some fmt =>
            if fmt ≠ MemoryFormat.Contiguous then
              (TensorImpl.empty_tensor_restride r1.1 fmt, [Event.restride fmt])
            else (r1.1, [])
          | none => (r1.1, [])
        (Except.ok r2.1,
          Event.allocate size_bytes :: Event.storageCreated size_bytes ::
            (r1.2 ++ r2.2 ++ [Event.descriptorBuilt]))

/-- The allocator environment of a process: the default CPU allocator
and, when registered, a pinned-memory allocator. -/
structure AllocatorRegistry where
  cpu : Allocator
  pinned : Option Allocator

/-- `GetCPUAllocatorMaybePinned` from the source file.  The pinned branch
calls `getCUDAHooks().getPinnedMemoryAllocator()`, which is outside the
source file; modelled from the spec: resolution "fails with an
UnsupportedPolicyError if the requested memory-space/device combination
has no registered allocator" and "is side-effect-free; resolution does
not allocate". -/
def GetCPUAllocatorMaybePinned (reg : AllocatorRegistry) (pin_memory : Bool) :
    Except Err Allocator :=
  if pin_memory then
    match reg.pinned with
    | some a => Except.ok a
    | none => Except.error Err.unsupportedPolicyError
  else Except.ok reg.cpu

/-- The resolved-value `empty_cpu` overload from the source file:
resolves the allocator from the pin-memory policy, then delegates to
`empty_generic`. -/
def empty_cpu (reg : AllocatorRegistry) (size : List Int) (dtype : ScalarType)
    (pin_memory : Bool) (memory_format_opt : Option MemoryFormat) :
    Except Err TensorImpl × List Event :=
  match GetCPUAllocatorMaybePinned reg pin_memory with
  | Except.error e => (Except.error e, [])
  | Except.ok allocator => empty_generic size allocator dtype memory_format_opt

/-- Device type tags (the engine itself only targets CPU). -/
inductive DeviceType where
  | CPU | CUDA
deriving DecidableEq

/-- Layout tags. -/
inductive Layout where
  | Strided | Sparse
deriving DecidableEq

/-- Modelled from the spec: `device_or_default` (outside the source
file) — the device defaults to CPU when unspecified. -/
def device_or_default (o : Option DeviceType) : DeviceType := o.getD DeviceType.CPU

/-- Modelled from the spec: `layout_or_default` (outside the source
file) — the layout defaults to Strided when unspecified. -/
def layout_or_default (o : Option Layout) : Layout := o.getD Layout.Strided

/-- Modelled from the spec: `pinned_memory_or_default` (outside the
source file) — pinned memory defaults to off when unspecified. -/
def pinned_memory_or_default (o : Option Bool) : Bool := o.getD false

/-- Modelled from the spec: `dtype_or_default` (outside the source
file) — the element type defaults to single-precision Float. -/
def dtype_or_default (o : Option ScalarType) : ScalarType := o.getD ScalarType.Float

/-- The optional-fields `empty_cpu` overload from the source file:
resolves device/layout (checked only by debug-build internal asserts,
no-ops in release builds), defaults pin-memory and dtype, and delegates
to the resolved-value overload. -/
def empty_cpu_opts (reg : AllocatorRegistry) (size : List Int)
    (dtype_opt : Option ScalarType) (layout_opt : Option Layout)
    (device_opt : Option DeviceType) (pin_memory_opt : Option Bool)
    (memory_format_opt : Option MemoryFormat) :
    Except Err TensorImpl × List Event :=
  let _device := device_or_default device_opt
  let _layout := layout_or_default layout_opt
  let pin_memory := pinned_memory_or_default pin_memory_opt
  let dtype := dtype_or_default dtype_opt
  empty_cpu reg size dtype pin_memory memory_format_opt

/-- The caller-facing bag of optional fields (`TensorOptions`). -/
structure TensorOptions where
  dtype_opt : Option ScalarType
  layout_opt : Option Layout
  device_opt : Option DeviceType
  pinned_memory_opt : Option Bool
  memory_format_opt : Option MemoryFormat

/-- The `TensorOptions` `empty_cpu` overload from the source file:
extracts the options' optional fields and delegates. -/
def empty_cpu_options (reg : AllocatorRegistry) (size : List Int)
    (options : TensorOptions) : Except Err TensorImpl × List Event :=
  empty_cpu_opts reg size options.dtype_opt options.layout_opt
    options.device_opt options.pinned_memory_opt options.memory_format_opt

/-- Spec-side definition for refinement comparison: the plain
mathematical product of all dimensions ("product(shape)", with the empty
product 1), written from the spec's words, not from the source. -/
def specProduct (shape : List Int) : Int := shape.foldr (· * ·) 1

/-- Spec-side definition for refinement comparison: strides in which each
dimension's stride is literally "the product of all dimension sizes to
its right" (no size-0/1 convention), written from the claim's words. -/
def plainRightProducts : List Int → List Int
  | [] => []
  | _ :: rest => specProduct rest :: plainRightProducts rest

/-- An always-succeeding allocator used for concrete evaluations. -/
def okAllocator : Allocator := ⟨fun _ => Except.ok ⟨0⟩⟩

/-- A registry with no pinned allocator registered. -/
def noPinnedRegistry : AllocatorRegistry := ⟨okAllocator, none⟩

/-- An event marking that a Storage was constructed or a Descriptor
completed: the two kinds of partial state an atomic failure must not
leave behind. -/
def isCreationEvent : Event → Bool
  | .storageCreated _ => true
  | .descriptorBuilt => true
  | _ => false

lemma checkedMul_error (a b : Int) (e : Err) (h : checkedMul a b = Except.error e) :
    e = Err.overflowError := by
  simp only [checkedMul] at h
  split at h
  · exact absurd h (by simp)
  · exact (Except.error.injEq _ _).mp h |>.symm

lemma checkedMul_ok (a b p : Int) (h : checkedMul a b = Except.ok p) : p = a * b := by
  simp only [checkedMul] at h
  split at h
  · exact ((Except.ok.injEq _ _).mp h).symm
  · exact absurd h (by simp)

lemma multiply_integers_go_error (l : List Int) (acc : Int) (e : Err)
    (h : multiply_integers_go acc l = Except.error e) : e = Err.overflowError := by
  induction l generalizing acc with
  | nil => simp [multiply_integers_go] at h
  | cons x rest ih =>
    rw [multiply_integers_go] at h
    cases hcm : checkedMul acc x with
    | error e2 =>
      rw [hcm] at h
      have he : e2 = e := ((Except.error.injEq _ _).mp h)
      exact he ▸ checkedMul_error acc x e2 hcm
    | ok p =>
      rw [hcm] at h
      exact ih p h

lemma multiply_integers_go_ok (l : List Int) (acc r : Int)
    (h : multiply_integers_go acc l = Except.ok r) : r = acc * specProduct l := by
  induction l generalizing acc with
  | nil =>
    simp [multiply_integers_go] at h
    simp [specProduct, ← h]
  | cons x rest ih =>
    rw [multiply_integers_go] at h
    cases hcm : checkedMul acc x with
    | error e2 => rw [hcm] at h; exact absurd h (by simp)
    | ok p =>
      rw [hcm] at h
      have hp : p = acc * x := checkedMul_ok acc x p hcm
      have hr := ih p h
      rw [hr, hp]
      simp [specProduct, List.foldr_cons, mul_assoc]

lemma multiply_integers_ok (size : List Int) (n : Int)
    (h : multiply_integers size = Except.ok n) : n = specProduct size := by
  have := multiply_integers_go_ok size 1 n h
  simpa using this

lemma multiply_integers_error (size : List Int) (e : Err)
    (h : multiply_integers size = Except.error e) : e = Err.overflowError :=
  multiply_integers_go_error size 1 e h

lemma check_size_nonnegative_go_ok (full l : List Int) (h : ∀ x ∈ l, 0 ≤ x) :
    check_size_nonnegative_go full l = Except.ok () := by
  induction l with
  | nil => rfl
  | cons x rest ih =>
    have hx : x ≥ 0 := h x (List.mem_cons_self x rest)
    simp only [check_size_nonnegative_go, if_pos hx]
    exact ih fun y hy => h y (List.mem_cons_of_mem x hy)

lemma check_size_nonnegative_ok (size : List Int) (h : ∀ x ∈ size, 0 ≤ x) :
    check_size_nonnegative size = Except.ok () :=
  check_size_nonnegative_go_ok size size h

lemma check_size_nonnegative_go_neg (full l : List Int) (x : Int)
    (hx : x ∈ l) (hneg : x < 0) :
    ∃ d, d ∈ l ∧ d < 0 ∧
      check_size_nonnegative_go full l = Except.error (Err.validationError d full) := by
  induction l with
  | nil => cases hx
  | cons y rest ih =>
    by_cases hy : y ≥ 0
    · have hx' : x ∈ rest := by
        rcases List.mem_cons.mp hx with h | h
        · omega
        · exact h
      obtain ⟨d, hd, hdneg, heq⟩ := ih hx'
      exact ⟨d, List.mem_cons_of_mem _ hd, hdneg,
        by simp only [check_size_nonnegative_go, if_pos hy]; exact heq⟩
    · exact ⟨y, List.mem_cons_self _ _, by omega,
        by simp only [check_size_nonnegative_go, if_neg hy]⟩

lemma wrap64_fits (z : Int) (h1 : int64_min ≤ z) (h2 : z ≤ int64_max) : wrap64 z = z := by
  unfold wrap64
  unfold int64_min at h1
  unfold int64_max at h2
  omega

lemma contiguousStrides_getLast (l : List Int) (h : l ≠ []) :
    (contiguousStrides l).getLast? = some 1 := by
  induction l with
  | nil => exact absurd rfl h
  | cons x rest ih =>
    cases rest with
    | nil => rfl
    | cons y rs =>
      have hlast := ih (by simp)
      simp only [contiguousStrides] at hlast ⊢
      rw [List.getLast?_cons_cons]
      exact hlast

/-- Claim C2: for any shape containing a dimension < 0, allocation fails
with a ValidationError carrying the offending dimension value and the
full shape, for every such shape, element type, allocator and memory
format; no side effect is performed. -/
theorem C2_negative_dim_rejected (size : List Int) (a : Allocator) (st : ScalarType)
    (fmt : Option MemoryFormat) (x : Int) (hx : x ∈ size) (hneg : x < 0) :
    ∃ d, d ∈ size ∧ d < 0 ∧
      empty_generic size a st fmt = (Except.error (Err.validationError d size), []) := by
  obtain ⟨d, hd, hdneg, heq⟩ := check_size_nonnegative_go_neg size size x hx hneg
  refine ⟨d, hd, hdneg, ?_⟩
  have hc : check_size_nonnegative size = Except.error (Err.validationError d size) := heq
  simp only [empty_generic, hc]

/-- Witness for C2 at the concrete shape `[-1, 2]`. -/
theorem C2_negative_dim_rejected_witness :
    ∃ d, d ∈ [(-1 : Int), 2] ∧ d < 0 ∧
      empty_generic [(-1 : Int), 2] okAllocator ScalarType.Float none =
        (Except.error (Err.validationError d [(-1 : Int), 2]), []) :=
  C2_negative_dim_rejected [(-1 : Int), 2] okAllocator ScalarType.Float none (-1)
    (by decide) (by decide)

/-- Claim C4: allocation with the canonical default shape `[0]` yields a
Descriptor whose sizes are the literal `[0]`, whose strides are the
default `[1]` kept from the freshly constructed state (the trace shows
that no sizes/strides recomputation event occurs), and whose Storage
byte length is `0`. -/
theorem C4_default_shape_allocation (st : ScalarType) (a : Allocator) (p : DataPtr)
    (h : a.allocate 0 = Except.ok p) :
    empty_generic [0] a st none =
      (Except.ok { storage := { size_bytes := 0, data := p, resizable := true },
                   sizes := [0], strides := [1], dtype := st },
       [Event.allocate 0, Event.storageCreated 0, Event.descriptorBuilt]) := by
  have hc : check_size_nonnegative [0] = Except.ok () := rfl
  have hm : multiply_integers [0] = Except.ok 0 := rfl
  have hw : wrap64 (0 * itemsize st) = 0 := by rw [Int.zero_mul]; rfl
  have hw0 : wrap64 0 = 0 := rfl
  simp [empty_generic, hc, hm, hw, hw0, h]

/-- Witness for C4 with the always-succeeding allocator. -/
theorem C4_default_shape_allocation_witness :
    empty_generic [0] okAllocator ScalarType.Float none =
      (Except.ok { storage := { size_bytes := 0, data := ⟨0⟩, resizable := true },
                   sizes := [0], strides := [1], dtype := ScalarType.Float },
       [Event.allocate 0, Event.storageCreated 0, Event.descriptorBuilt]) :=
  C4_default_shape_allocation ScalarType.Float okAllocator ⟨0⟩ rfl

/-- Claim C5: requesting the Contiguous memory format on the freshly
built (contiguous) Descriptor is a no-op identity transform: the result,
storage identity included, is the same as when no format is requested,
and the restride operation never appears in the trace. -/
theorem C5_contiguous_restride_noop (size : List Int) (a : Allocator) (st : ScalarType) :
    empty_generic size a st (some MemoryFormat.Contiguous) = empty_generic size a st none ∧
    ∀ f, Event.restride f ∉ (empty_generic size a st (some MemoryFormat.Contiguous)).2 := by
  constructor
  · unfold empty_generic
    cases hc : check_size_nonnegative size with
    | error e => rfl
    | ok u =>
      cases hm : multiply_integers size with
      | error e => rfl
      | ok n =>
        cases ha : a.allocate (wrap64 (n * itemsize st)) with
        | error e => rfl
        | ok p => simp
  · intro f
    simp only [empty_generic]
    cases hc : check_size_nonnegative size with
    | error e => simp
    | ok u =>
      cases hm : multiply_integers size with
      | error e => simp
      | ok n =>
        cases ha : a.allocate (wrap64 (n * itemsize st)) with
        | error e => simp [ha]
        | ok p =>
          simp [ha]
          split <;> simp

/-- Witness for C5 at the concrete shape `[2, 3]`. -/
theorem C5_contiguous_restride_noop_witness :
    empty_generic [2, 3] okAllocator ScalarType.Float (some MemoryFormat.Contiguous) =
      empty_generic [2, 3] okAllocator ScalarType.Float none :=
  (C5_contiguous_restride_noop [2, 3] okAllocator ScalarType.Float).1

/-- Claim C6: requesting pinned allocation when no pinned allocator is
registered fails with an UnsupportedPolicyError, and the empty trace
shows that resolution performed no side effect and no buffer allocation
happened before the failure. -/
theorem C6_pinned_unsupported (reg : AllocatorRegistry) (size : List Int)
    (st : ScalarType) (fmt : Option MemoryFormat) (h : reg.pinned = none) :
    empty_cpu reg size st true fmt = (Except.error Err.unsupportedPolicyError, []) := by
  simp [empty_cpu, GetCPUAllocatorMaybePinned, h]

/-- Witness for C6 with a registry lacking a pinned allocator. -/
theorem C6_pinned_unsupported_witness :
    empty_cpu noPinnedRegistry [2, 3] ScalarType.Float true none =
      (Except.error Err.unsupportedPolicyError, []) :=
  C6_pinned_unsupported noPinnedRegistry [2, 3] ScalarType.Float none rfl

lemma empty_generic_error_trace (size : List Int) (a : Allocator) (st : ScalarType)
    (fmt : Option MemoryFormat) (e : Err)
    (h : (empty_generic size a st fmt).1 = Except.error e) :
    (empty_generic size a st fmt).2 = [] ∨
      ∃ m, (empty_generic size a st fmt).2 = [Event.allocate m] := by
  simp only [empty_generic]
  cases hc : check_size_nonnegative size with
  | error e2 => exact Or.inl rfl
  | ok u =>
    cases hm : multiply_integers size with
    | error e2 => exact Or.inl rfl
    | ok n =>
      cases ha : a.allocate (wrap64 (n * itemsize st)) with
      | error e2 => exact Or.inr ⟨wrap64 (n * itemsize st), by simp [ha]⟩
      | ok p =>
        exfalso
        have : (empty_generic size a st fmt).1 ≠ Except.error e := by
          simp [empty_generic, hc, hm, ha]
        exact this h

/-- Claim C7: allocation is atomic on failure — on every error path of
`empty_cpu` (shape validation, overflow, allocator resolution, allocator
invocation) the trace contains neither a Storage-creation nor a
Descriptor-completion event; in fact the trace is empty except possibly
for the single failed allocator call. -/
theorem C7_atomic_on_failure (reg : AllocatorRegistry) (size : List Int)
    (st : ScalarType) (pin : Bool) (fmt : Option MemoryFormat) (e : Err)
    (h : (empty_cpu reg size st pin fmt).1 = Except.error e) :
    List.all (empty_cpu reg size st pin fmt).2 (fun ev => !isCreationEvent ev) = true := by
  unfold empty_cpu at h ⊢
  cases hres : GetCPUAllocatorMaybePinned reg pin with
  | error e2 => simp [hres]
  | ok alloc =>
    rw [hres] at h
    simp only [hres]
    rcases empty_generic_error_trace size alloc st fmt e h with h0 | ⟨m, h0⟩ <;>
      rw [h0] <;> rfl

/-- Witness for C7 at a pinned request with no pinned allocator. -/
theorem C7_atomic_on_failure_witness :
    List.all (empty_cpu noPinnedRegistry [2] ScalarType.Float true none).2
      (fun ev => !isCreationEvent ev) = true :=
  C7_atomic_on_failure noPinnedRegistry [2] ScalarType.Float true none
    Err.unsupportedPolicyError rfl

/-- Claim C9: the three `empty_cpu` entry points are extensionally
equal — the TensorOptions overload equals the optional-fields overload
on the options' extracted fields, and the optional-fields overload
equals the resolved-value overload on the defaulted dtype and pin-memory
values. -/
theorem C9_overloads_agree (reg : AllocatorRegistry) (size : List Int)
    (options : TensorOptions) (dtype_opt : Option ScalarType)
    (layout_opt : Option Layout) (device_opt : Option DeviceType)
    (pin_memory_opt : Option Bool) (memory_format_opt : Option MemoryFormat) :
    empty_cpu_options reg size options =
      empty_cpu_opts reg size options.dtype_opt options.layout_opt options.device_opt
        options.pinned_memory_opt options.memory_format_opt ∧
    empty_cpu_opts reg size dtype_opt layout_opt device_opt pin_memory_opt
        memory_format_opt =
      empty_cpu reg size (dtype_or_default dtype_opt)
        (pinned_memory_or_default pin_memory_opt) memory_format_opt :=
  ⟨rfl, rfl⟩

/-- Claim C10: for the canonical default shape `[0]` with an explicit
memory format other than Contiguous, the restride operation is still
applied to the freshly built Descriptor (the trace contains the restride
event and no sizes/strides-from-shape event): the `[0]` special case
skips only the setting of sizes/strides from the shape. -/
theorem C10_default_shape_still_restrides (st : ScalarType) (a : Allocator)
    (p : DataPtr) (f : MemoryFormat) (h : a.allocate 0 = Except.ok p)
    (hf : f ≠ MemoryFormat.Contiguous) :
    empty_generic [0] a st (some f) =
      (Except.ok (TensorImpl.empty_tensor_restride
          { storage := { size_bytes := 0, data := p, resizable := true },
            sizes := [0], strides := [1], dtype := st } f),
       [Event.allocate 0, Event.storageCreated 0, Event.restride f,
        Event.descriptorBuilt]) := by
  have hc : check_size_nonnegative [0] = Except.ok () := rfl
  have hm : multiply_integers [0] = Except.ok 0 := rfl
  have hw : wrap64 (0 * itemsize st) = 0 := by rw [Int.zero_mul]; rfl
  have hw0 : wrap64 0 = 0 := rfl
  simp [empty_generic, hc, hm, hw, hw0, h, hf]

/-- Witness for C10 with the ChannelsLast format. -/
theorem C10_default_shape_still_restrides_witness :
    empty_generic [0] okAllocator ScalarType.Float (some MemoryFormat.ChannelsLast) =
      (Except.ok (TensorImpl.empty_tensor_restride
          { storage := { size_bytes := 0, data := ⟨0⟩, resizable := true },
            sizes := [0], strides := [1], dtype := ScalarType.Float }
          MemoryFormat.ChannelsLast),
       [Event.allocate 0, Event.storageCreated 0,
        Event.restride MemoryFormat.ChannelsLast, Event.descriptorBuilt]) :=
  C10_default_shape_still_restrides ScalarType.Float okAllocator ⟨0⟩
    MemoryFormat.ChannelsLast rfl (by decide)

lemma set_sizes_contiguous_storage (t : TensorImpl) (s : List Int) :
    (TensorImpl.set_sizes_contiguous t s).storage = t.storage := rfl

lemma empty_tensor_restride_storage (t : TensorImpl) (f : MemoryFormat) :
    (TensorImpl.empty_tensor_restride t f).storage = t.storage := by
  cases f <;> rfl

lemma empty_generic_ok_storage_bytes (size : List Int) (a : Allocator)
    (st : ScalarType) (fmt : Option MemoryFormat) (n : Int) (t : TensorImpl)
    (hm : multiply_integers size = Except.ok n)
    (h : (empty_generic size a st fmt).1 = Except.ok t) :
    t.storage.size_bytes = wrap64 (n * itemsize st) := by
  simp only [empty_generic] at h
  cases hc : check_size_nonnegative size with
  | error e2 => rw [hc] at h; simp at h
  | ok u =>
    simp only [hc, hm] at h
    cases ha : a.allocate (wrap64 (n * itemsize st)) with
    | error e2 => rw [ha] at h; simp at h
    | ok p =>
      rw [ha] at h
      simp only [Except.ok.injEq] at h
      subst h
      rcases fmt with _ | f
      · dsimp only
        split <;> rfl
      · dsimp only
        split
        · rw [empty_tensor_restride_storage]
          split <;> rfl
        · split <;> rfl

/-- Claim C1 (amended): the element-count computation is overflow-checked
and an overflow there fails with an OverflowError; the byte-size
multiplication `nelements * dtype.itemsize()`, however, is an unchecked
64-bit multiplication, so the stored byte size is the product wrapped
modulo `2^64` rather than an OverflowError. -/
theorem C1_elemcount_checked_bytesize_wrapped (size : List Int) (st : ScalarType)
    (a : Allocator) (fmt : Option MemoryFormat) (n : Int) :
    (∀ e, multiply_integers size = Except.error e → e = Err.overflowError) ∧
    (check_size_nonnegative size = Except.ok () →
      multiply_integers size = Except.error Err.overflowError →
      empty_generic size a st fmt = (Except.error Err.overflowError, [])) ∧
    (multiply_integers size = Except.ok n →
      ∀ t, (empty_generic size a st fmt).1 = Except.ok t →
        t.storage.size_bytes = wrap64 (n * itemsize st)) := by
  refine ⟨fun e he => multiply_integers_error size e he, fun hc hme => ?_, fun hm t ht =>
    empty_generic_ok_storage_bytes size a st fmt n t hm ht⟩
  simp only [empty_generic, hc, hme]

/-- Witness for C1 (amended): at shape `[2^62, 2]` the element count
overflows and allocation fails with the OverflowError. -/
theorem C1_elemcount_checked_bytesize_wrapped_witness :
    empty_generic [2 ^ 62, 2] okAllocator ScalarType.Double none =
      (Except.error Err.overflowError, []) :=
  (C1_elemcount_checked_bytesize_wrapped [2 ^ 62, 2] ScalarType.Double okAllocator
    none 0).2.1 rfl rfl

/-- Counterexample to C1 as stated: at shape `[2^62]` with an 8-byte
element type, the byte-size product `2^62 * 8 = 2^65` overflows `int64`,
yet allocation does not fail with an OverflowError — it succeeds with
the byte size silently wrapped modulo `2^64` to `0`. -/
theorem C1_counterexample :
    (empty_generic [2 ^ 62] okAllocator ScalarType.Double none).1 =
      Except.ok { storage := { size_bytes := 0, data := ⟨0⟩, resizable := true },
                  sizes := [2 ^ 62], strides := [1], dtype := ScalarType.Double } ∧
    (0 : Int) ≠ 2 ^ 62 * itemsize ScalarType.Double := by
  constructor
  · rfl
  · decide

/-- Claim C3 (amended): for every shape with all dimensions >= 0 whose
overflow-checked element count succeeds with value `n`, if
`n * width(T)` fits in `int64` then (with a succeeding allocator) the
Storage byte size equals `product(shape) * width(T)`; when that final
product overflows it wraps instead of matching the product. -/
theorem C3_bytesize_eq_product_when_fits (size : List Int) (st : ScalarType)
    (a : Allocator) (p : DataPtr) (n : Int)
    (hnn : ∀ x ∈ size, 0 ≤ x)
    (hm : multiply_integers size = Except.ok n)
    (hfit1 : int64_min ≤ n * itemsize st) (hfit2 : n * itemsize st ≤ int64_max)
    (halloc : ∀ m, a.allocate m = Except.ok p) :
    ∃ t, (empty_generic size a st none).1 = Except.ok t ∧
      t.storage.size_bytes = specProduct size * itemsize st := by
  have hc := check_size_nonnegative_ok size hnn
  have hw := wrap64_fits _ hfit1 hfit2
  have hn := multiply_integers_ok size n hm
  simp only [empty_generic, hc, hm, hw, halloc]
  refine ⟨_, rfl, ?_⟩
  rw [← hn]
  split <;> rfl

/-- Witness for C3 (amended) at shape `[2, 3]` with Float elements. -/
theorem C3_bytesize_eq_product_when_fits_witness :
    ∃ t, (empty_generic [2, 3] okAllocator ScalarType.Float none).1 = Except.ok t ∧
      t.storage.size_bytes = specProduct [2, 3] * itemsize ScalarType.Float :=
  C3_bytesize_eq_product_when_fits [2, 3] ScalarType.Float okAllocator ⟨0⟩ 6
    (by decide) rfl (by decide) (by decide) (fun m => rfl)

/-- Counterexample to C3 as stated: shape `[2^61]` has every dimension
>= 0, yet with an 8-byte element type the produced Storage has byte size
`0`, not `product(shape) * width(T) = 2^64`. -/
theorem C3_counterexample :
    (empty_generic [2 ^ 61] okAllocator ScalarType.Double none).1 =
      Except.ok { storage := { size_bytes := 0, data := ⟨0⟩, resizable := true },
                  sizes := [2 ^ 61], strides := [1], dtype := ScalarType.Double } ∧
    (0 : Int) ≠ specProduct [2 ^ 61] * itemsize ScalarType.Double := by
  constructor
  · rfl
  · decide

/-- Claim C8 (amended): for every shape with all dimensions >= 0 that
passes the overflow check (with a succeeding allocator), the resulting
strides follow the row-major derivation in which the last dimension has
stride 1 and each preceding dimension's stride is the product, over the
dimension sizes to its right, of `max(size, 1)` — a size-0 or size-1
dimension leaves the cumulative product unchanged; in particular shape
`[2, 3, 4]` yields strides `[12, 4, 1]`. -/
theorem C8_strides_row_major (size : List Int) (a : Allocator) (st : ScalarType)
    (p : DataPtr) (n : Int)
    (hnn : ∀ x ∈ size, 0 ≤ x)
    (hm : multiply_integers size = Except.ok n)
    (halloc : ∀ m, a.allocate m = Except.ok p) :
    (∃ t, (empty_generic size a st none).1 = Except.ok t ∧
       t.strides = contiguousStrides size ∧
       (size ≠ [] → t.strides.getLast? = some 1)) ∧
    contiguousStrides [2, 3, 4] = [12, 4, 1] := by
  constructor
  · have hc := check_size_nonnegative_ok size hnn
    simp only [empty_generic, hc, hm, halloc]
    refine ⟨_, rfl, ?_⟩
    split
    · exact ⟨rfl, fun hne => contiguousStrides_getLast size hne⟩
    · next hcond =>
      have hsz : size = [0] := by
        rcases size with _ | ⟨x, rest⟩
        · simp at hcond
        · push_neg at hcond
          obtain ⟨h1, h2⟩ := hcond
          rcases rest with _ | ⟨y, rs⟩
          · simp [List.headD] at h2
            subst h2
            rfl
          · simp [List.length] at h1
      subst hsz
      exact ⟨rfl, fun hne => rfl⟩
  · decide

/-- Witness for C8 (amended) at shape `[2, 3, 4]` with Float elements. -/
theorem C8_strides_row_major_witness :
    (∃ t, (empty_generic [2, 3, 4] okAllocator ScalarType.Float none).1 = Except.ok t ∧
       t.strides = contiguousStrides [2, 3, 4] ∧
       (([2, 3, 4] : List Int) ≠ [] → t.strides.getLast? = some 1)) ∧
    contiguousStrides [2, 3, 4] = [12, 4, 1] :=
  C8_strides_row_major [2, 3, 4] okAllocator ScalarType.Float ⟨0⟩ 24
    (by decide) rfl (fun m => rfl)

/-- Counterexample to C8 as stated: for shape `[2, 0, 3]` (all
dimensions >= 0, Contiguous allocation) the produced strides are
`[3, 3, 1]` — the size-0 dimension contributes `max(0, 1) = 1` to the
cumulative products — not the literal products of the sizes to the
right, which would be `[0, 3, 1]`. -/
theorem C8_counterexample :
    (empty_generic [2, 0, 3] okAllocator ScalarType.Float none).1 =
      Except.ok { storage := { size_bytes := 0, data := ⟨0⟩, resizable := true },
                  sizes := [2, 0, 3], strides := [3, 3, 1], dtype := ScalarType.Float } ∧
    plainRightProducts [2, 0, 3] = [0, 3, 1] ∧
    ([3, 3, 1] : List Int) ≠ [0, 3, 1] := by
  refine ⟨rfl, by decide, by decide⟩
